import Mathlib

/-!
Verification of the transaction-lifecycle pipeline of the dia-kadena-oracles
repository (a CLI that builds, gas-estimates, signs, submits and polls
Kadena transactions).

The pipeline code lives in `src/utils.ts` / `src/kadena.ts` (the functions
`panic`, `safeSign`, `panicIfFails`, `extractResult`, `estimateGas`,
`sendTransaction`) and in `cli.ts` (the `deploy` poll check, the `balance`
handler and the `ChainId` argument type).  Those functions are embedded
below as pure Lean functions.  External collaborators from the
`@kadena/client` library (`composePactCommand`, `setMeta`,
`createTransaction`, `isSignedTransaction`, the client `local`,
`submitOne` and `listen` calls) are modelled after their documented
contracts: command composition merges partial commands left to right with
later fields overriding earlier ones, and `createTransaction` finalizes a
command into a hashed snapshot with one empty signature slot per declared
signer.  The hash function itself is kept abstract (a parameter), and the
network calls are parameters of the pipeline.

Effects are made explicit: a JavaScript `throw new Error(msg)` becomes
`Except.error (JsError.thrown msg)`, and `panic` — which prints its
arguments with `console.error` and then calls `process.exit(1)` — becomes
`Except.error (JsError.processExit 1 msg payload)`.  The two constructors
keep the two abort mechanisms distinguishable: `thrown` is a catchable
error value, `processExit` terminates the host process.
-/

namespace DiaKadena

/-- JSON-like values: the payloads (`result.data`, `result.error`) carried
by Kadena command results. -/
inductive JsonVal where
  | null : JsonVal
  | bool (b : Bool) : JsonVal
  | num (q : ℚ) : JsonVal
  | str (s : String) : JsonVal
  | arr (xs : List JsonVal) : JsonVal
  | obj (fields : List (String × JsonVal)) : JsonVal
deriving Repr

/-- Field lookup in the field list of a JSON object; models the JavaScript
check that `message` is a key of `e`, followed by reading `e.message`. -/
def lookupField (fields : List (String × JsonVal)) (key : String) : Option JsonVal :=
  (fields.find? fun p => p.fst == key).map (·.snd)

/-- Models JavaScript `String.prototype.includes`: `jsIncludes s sub` is
true when `sub` occurs as a contiguous substring of `s`. -/
def jsIncludes (s sub : String) : Bool :=
  decide (List.IsInfix sub.data s.data)

/-- The two abort mechanisms of the program: `thrown msg` is a JavaScript
`throw new Error(msg)`; `processExit code msg payload` is `panic`
(`src/utils.ts`): it logs `msg` and `payload` with `console.error` and
terminates the host process via `process.exit(code)`. -/
inductive JsError where
  | thrown (msg : String) : JsError
  | processExit (code : Nat) (msg : String) (payload : JsonVal) : JsError
deriving Repr

/-- Function `panic` from `src/utils.ts`: `console.error(msg, ...params); process.exit(1)`.
The logged message and payload are carried so theorems can state that the
error payload of the chain is surfaced verbatim. -/
def panic (msg : String) (payload : JsonVal) : JsError :=
  JsError.processExit 1 msg payload

/-- Transaction metadata (`meta` of an `IPartialPactCommand`): every field
optional while the command is still partial. -/
structure PactMeta where
  chainId : Option String := none
  senderAccount : Option String := none
  gasLimit : Option Nat := none
  gasPrice : Option ℚ := none
deriving Repr

/-- A (partial) Pact command: executable code, exec data, declared signers,
metadata and network id. -/
structure PactCommand where
  code : String := ""
  data : List (String × JsonVal) := []
  signers : List String := []
  meta : PactMeta := {}
  networkId : Option String := none
deriving Repr

/-- Model of the `@kadena/client/fp` meta merge used by both
`composePactCommand({meta: ...})` and `setMeta(...)`: fields present in the
new partial meta override those of the command, absent fields are kept. -/
def mergeMeta (base new : PactMeta) : PactMeta where
  chainId := (new.chainId.orElse fun _ => base.chainId)
  senderAccount := (new.senderAccount.orElse fun _ => base.senderAccount)
  gasLimit := (new.gasLimit.orElse fun _ => base.gasLimit)
  gasPrice := (new.gasPrice.orElse fun _ => base.gasPrice)

/-- Model of `setMeta(m)` applied to a command (and of
`composePactCommand({meta: m})(cmd)`): merge `m` onto the meta of the command,
later fields winning. -/
def setMeta (m : PactMeta) (cmd : PactCommand) : PactCommand :=
  { cmd with meta := mergeMeta cmd.meta m }

/-- A finalized transaction (`IUnsignedCommand` / `ICommand`): the hashed
command snapshot (`cmd`, kept structured here), its `hash`, and one
signature slot per declared signer (`none` = not yet signed). -/
structure Tx where
  cmd : PactCommand
  hash : String
  sigs : List (Option String)
deriving Repr

/-- Model of `createTransaction` from `@kadena/client`: snapshot the
command, hash it with the (abstract) hash function, and allocate one empty
signature slot per declared signer. -/
def createTransaction (hashFn : PactCommand → String) (cmd : PactCommand) : Tx :=
  { cmd := cmd, hash := hashFn cmd, sigs := List.replicate cmd.signers.length none }

/-- Model of `isSignedTransaction` from `@kadena/client`: every signature
slot is filled. -/
def isSignedTransaction (tx : Tx) : Bool :=
  tx.sigs.all Option.isSome

/-- Function `safeSign` from `src/kadena.ts` (also `src/utils.ts`): on an empty
signature slot list return the transaction as already signed; otherwise
invoke the signing capability, merge only its `sigs` onto the original
transaction, reject on hash mismatch, and reject when some slot is still
unsigned.  The source binds `signedTx = sign(tx)` and
`txWithSigs = {...tx, sigs: signedTx.sigs}`; both are inlined here:
`sign tx` for `signedTx` and the `sigs` record update for `txWithSigs`. -/
def safeSign (sign : Tx → Tx) (tx : Tx) : Except JsError Tx :=
  if tx.sigs.length = 0 then Except.ok tx
  else if ({ tx with sigs := (sign tx).sigs } : Tx).hash ≠ (sign tx).hash then
    Except.error (JsError.thrown "Hash mismatch")
  else if ¬ (isSignedTransaction { tx with sigs := (sign tx).sigs } = true) then
    Except.error (JsError.thrown "Signing failed")
  else Except.ok { tx with sigs := (sign tx).sigs }

/-- The outcome of one command: the discriminated union
of a success status with data and a failure status with an error. -/
inductive TxResult where
  | success (data : JsonVal) : TxResult
  | failure (error : JsonVal) : TxResult
deriving Repr

/-- An `ICommandResult`: the terminal result plus the consumed gas
reported by the node. -/
structure ICommandResult where
  result : TxResult
  gas : Nat
deriving Repr

/-- Function `panicIfFails` from `src/utils.ts`: when the result status is not
success, `panic` with the error payload reported by the chain; otherwise pass the
response through. -/
def panicIfFails (response : ICommandResult) : Except JsError ICommandResult :=
  match response.result with
  | TxResult.failure e => Except.error (panic "Failed to execute the command:" e)
  | TxResult.success _ => Except.ok response

/-- Function `extractResult` from `src/utils.ts`: on non-success delegate to
`panicIfFails` (which aborts), otherwise return `result.data`. -/
def extractResult (response : ICommandResult) : Except JsError JsonVal :=
  match response.result with
  | TxResult.failure _ =>
      (panicIfFails response).map fun r =>
        match r.result with
        | TxResult.success d => d
        | TxResult.failure _ => JsonVal.null
  | TxResult.success d => Except.ok d

/-- The fixed network-wide gas price `1.0e-8` used by `estimateGas`. -/
def GAS_PRICE : ℚ := 1 / 100000000

/-- The `{gasLimit, gasPrice}` pair returned by `estimateGas`. -/
structure GasEstimate where
  gasLimit : Nat
  gasPrice : ℚ
deriving Repr

/-- The command submitted to the speculative dry run by `estimateGas`:
`composePactCommand({meta: {gasLimit: 150_000, gasPrice: 1.0e-8}})`
applied to the incoming command — the provisional bound overrides the
meta fields of the command itself, for the dry run only. -/
def estimateCmd (command : PactCommand) : PactCommand :=
  setMeta { gasLimit := some 150000, gasPrice := some GAS_PRICE } command

/-- The transaction `estimateGas` sends to the non-committing
`local` call (after `createTransaction`). -/
def estimateTx (hashFn : PactCommand → String) (command : PactCommand) : Tx :=
  createTransaction hashFn (estimateCmd command)

/-- Function `estimateGas` from `src/kadena.ts` (also `src/utils.ts`): attach the
provisional meta, finalize, run the speculative `local` call (a parameter
`localCall` standing for `client.local(tx, {preflight: true,
signatureVerification: false})`), abort through `panicIfFails` when the dry
run reports failure, and otherwise return the consumed gas with the fixed
gas price. -/
def estimateGas (localCall : Tx → ICommandResult) (hashFn : PactCommand → String)
    (command : PactCommand) : Except JsError GasEstimate :=
  match panicIfFails (localCall (estimateTx hashFn command)) with
  | Except.error e => Except.error e
  | Except.ok response => Except.ok { gasLimit := response.gas, gasPrice := GAS_PRICE }

/-- An `ITransactionDescriptor`: the handle returned by submission. -/
structure ITransactionDescriptor where
  requestKey : String
  networkId : String
  chainId : String
deriving Repr, DecidableEq

/-- Function `logTransaction` from `src/kadena.ts`: logs the request key and an
explorer link to the console and passes the descriptor through unchanged
(the console output is not modelled). -/
def logTransaction (descriptor : ITransactionDescriptor) : ITransactionDescriptor :=
  descriptor

/-- The network client (`createClient(getHostUrl(host))`): its three calls
used by the pipeline, as abstract functions. -/
structure Client where
  localCall : Tx → ICommandResult
  submitOne : Tx → ITransactionDescriptor
  listen : ITransactionDescriptor → ICommandResult

/-- The command whose snapshot `sendTransaction` signs and submits:
`composePactCommand(setMeta({gasLimit}))` applied to the incoming command —
the estimated gas limit overrides any gas limit previously set. -/
def finalCmd (gasLimit : Nat) (command : PactCommand) : PactCommand :=
  setMeta { gasLimit := some gasLimit } command

/-- The unsigned transaction `sendTransaction` hands to `safeSign`. -/
def unsignedTx (hashFn : PactCommand → String) (gasLimit : Nat)
    (command : PactCommand) : Tx :=
  createTransaction hashFn (finalCmd gasLimit command)

/-- Function `sendTransaction` from `src/kadena.ts`: estimate gas, refine the meta,
finalize, sign through `safeSign`, submit, log, listen for the terminal
result and extract it.  Each stage aborts the rest on error. -/
def sendTransaction (hashFn : PactCommand → String) (client : Client)
    (command : PactCommand) (sign : Tx → Tx) : Except JsError JsonVal := do
  let est ← estimateGas client.localCall hashFn command
  let signed ← safeSign sign (unsignedTx hashFn est.gasLimit command)
  let descriptor := logTransaction (client.submitOne signed)
  let response := client.listen descriptor
  extractResult response

/-! ### `cli.ts`: the poll check of `deploy`, the `balance` handler and the
`ChainId` argument type. -/

/-- The check after `pollStatus` in `cli.ts` `deploy` (lines 145-152): the
poll response maps request keys to results; if the submitted request key is
absent (`if (!entry)`), log `Invalid API response` and exit the process
immediately, otherwise continue with that entry. -/
def pollResponseEntry (response : List (String × ICommandResult))
    (requestKey : String) : Except JsError ICommandResult :=
  match (response.find? fun p => p.fst == requestKey).map (·.snd) with
  | none => Except.error (JsError.processExit 1 "Invalid API response" JsonVal.null)
  | some entry => Except.ok entry

/-- The `result.error.message` check of the `balance` handler in `cli.ts`:
the error must be an object with a string field `message` whose text
contains `row not found`. -/
def errorIsRowNotFound (e : JsonVal) : Bool :=
  match e with
  | JsonVal.obj fields =>
      match lookupField fields "message" with
      | some (JsonVal.str m) => jsIncludes m "row not found"
      | _ => false
  | _ => false

/-- Observable outcome of the `balance` handler: either a line printed to
stdout, or a process exit with the logged error payload. -/
inductive BalanceOutcome where
  | printed (s : String) : BalanceOutcome
  | exited (code : Nat) (payload : JsonVal) : BalanceOutcome
deriving Repr

/-- The `balance` handler of `cli.ts` (lines 220-247), from the dirty-read
result onward: on success print `result.data.toString()` (`toStr` models
the runtime `toString`); on failure print `0.0` when the error message
contains `row not found`, otherwise log the error payload and exit. -/
def balanceHandler (toStr : JsonVal → String) (result : TxResult) : BalanceOutcome :=
  match result with
  | TxResult.success d => BalanceOutcome.printed (toStr d)
  | TxResult.failure e =>
      if errorIsRowNotFound e then BalanceOutcome.printed "0.0"
      else BalanceOutcome.exited 1 e

/-- A JavaScript number as the `ChainId` parser sees it: `NaN`, an
infinity, or a finite value (JavaScript doubles are rationals; the checks
below only distinguish integrality and the 0..19 range, which the rational
model decides exactly). -/
inductive JSNumber where
  | nan : JSNumber
  | inf (positive : Bool) : JSNumber
  | finite (q : ℚ) : JSNumber
deriving Repr, DecidableEq

/-- JavaScript `Math.round` on a finite number: round half toward positive
infinity. -/
def jsRound (q : ℚ) : ℚ :=
  ((⌊q + 1 / 2⌋ : ℤ) : ℚ)

/-- JavaScript `Number.prototype.toString` on the integral values the
parser lets through: the decimal representation of the integer. -/
def numToString (q : ℚ) : String :=
  toString q.num

/-- The `from` function of the `ChainId` argument type (`src/utils.ts`
lines 95-103, same check in `cli.ts` lines 32-37): reject `NaN`,
non-finite, non-integral, negative, and greater-than-19 inputs; accept the
rest as the decimal string. -/
def chainIdFrom (n : JSNumber) : Except String String :=
  match n with
  | JSNumber.nan => Except.error "Input is not a valid chain id"
  | JSNumber.inf _ => Except.error "Input is not a valid chain id"
  | JSNumber.finite q =>
      if jsRound q ≠ q ∨ q < 0 ∨ q > 19 then Except.error "Input is not a valid chain id"
      else Except.ok (numToString q)

/-- The `defaultValue` of the `ChainId` argument type: the string `0`. -/
def chainIdDefaultValue : String := "0"


/-! ### Concrete sample data used by the witness theorems. -/

/-- A concrete hash function for witnesses: hash the code of the command. -/
def sampleHash : PactCommand → String := fun c => String.append "hash:" c.code

/-- A concrete command with one declared signer. -/
def sampleCmd : PactCommand :=
  { code := "(+ 1 2)", signers := ["deadbeef"],
    meta := { chainId := some "0", senderAccount := some "k:deadbeef" },
    networkId := some "testnet04" }

/-- A concrete command with no declared signer. -/
def sampleNoSignerCmd : PactCommand :=
  { code := "(describe-module \"free.dia-oracle\")" }

/-- A concrete on-chain error payload. -/
def sampleErr : JsonVal := JsonVal.obj [("message", JsonVal.str "Table already exists")]

/-- A concrete `row not found` error payload, as the coin contract reports
it for an absent account. -/
def rowNotFoundErr : JsonVal :=
  JsonVal.obj [("message", JsonVal.str "with-read: row not found: k:alice")]

/-- A speculative-execution call that always succeeds, consuming 42 gas. -/
def sampleOkCall : Tx → ICommandResult := fun _ => ⟨TxResult.success JsonVal.null, 42⟩

/-- A speculative-execution call that always fails with `sampleErr`. -/
def sampleFailCall : Tx → ICommandResult := fun _ => ⟨TxResult.failure sampleErr, 7⟩

/-- A concrete submission descriptor. -/
def sampleDescriptor : ITransactionDescriptor := ⟨"req-key-1", "testnet04", "0"⟩

/-- A concrete listen call returning a successful terminal result. -/
def sampleListen : ITransactionDescriptor → ICommandResult :=
  fun _ => ⟨TxResult.success (JsonVal.str "Write succeeded"), 42⟩

/-- A tampering signing capability: it fills the signature slot but also
reports an altered hash. -/
def sampleAlterHashSign : Tx → Tx :=
  fun t => { t with hash := "altered", sigs := [some "sig0"] }

/-- An honest signing capability: it fills the signature slot and keeps the
hash. -/
def sampleGoodSign : Tx → Tx := fun t => { t with sigs := [some "sig0"] }

/-- A concrete unsigned transaction with one empty signature slot. -/
def txSample : Tx := { cmd := sampleCmd, hash := "H", sigs := [none] }

/-! ### Helper lemmas shared by the claim theorems. -/

theorem safeSign_mismatch_aux (sign : Tx → Tx) (tx : Tx)
    (hsigs : tx.sigs ≠ [])
    (hne : ({ tx with sigs := (sign tx).sigs } : Tx).hash ≠ (sign tx).hash) :
    safeSign sign tx = Except.error (JsError.thrown "Hash mismatch") := by
  have hL : ¬ tx.sigs.length = 0 := by
    simpa [List.length_eq_zero] using hsigs
  unfold safeSign
  rw [if_neg hL, if_pos hne]

theorem safeSign_ok_frame_aux (sign : Tx → Tx) (tx r : Tx)
    (h : safeSign sign tx = Except.ok r) :
    r.cmd = tx.cmd ∧ r.hash = tx.hash ∧ (tx.sigs = [] → r = tx) ∧
      (tx.sigs ≠ [] → r.sigs = (sign tx).sigs) := by
  unfold safeSign at h
  by_cases hlen : tx.sigs.length = 0
  · rw [if_pos hlen] at h
    injection h with h
    subst h
    exact ⟨rfl, rfl, fun _ => rfl, fun hne => absurd (List.length_eq_zero.mp hlen) hne⟩
  · rw [if_neg hlen] at h
    by_cases hne : ({ tx with sigs := (sign tx).sigs } : Tx).hash ≠ (sign tx).hash
    · rw [if_pos hne] at h
      exact Except.noConfusion h
    · rw [if_neg hne] at h
      by_cases hsig : ¬ (isSignedTransaction { tx with sigs := (sign tx).sigs } = true)
      · rw [if_pos hsig] at h
        exact Except.noConfusion h
      · rw [if_neg hsig] at h
        injection h with h
        subst h
        refine ⟨rfl, rfl, fun hnil => ?_, fun _ => rfl⟩
        exact absurd (List.length_eq_zero.mpr hnil) hlen

theorem chainIdFrom_accepts_int_aux (k : ℤ) (h0 : 0 ≤ k) (h19 : k ≤ 19) :
    chainIdFrom (JSNumber.finite (k : ℚ)) = Except.ok (toString k) := by
  have hround : jsRound (k : ℚ) = (k : ℚ) := by
    unfold jsRound
    norm_num [Int.floor_int_add]
  have hcond : ¬ (jsRound (k : ℚ) ≠ (k : ℚ) ∨ (k : ℚ) < 0 ∨ (k : ℚ) > 19) := by
    push_neg
    exact ⟨hround, by exact_mod_cast h0, by exact_mod_cast h19⟩
  simp only [chainIdFrom]
  rw [if_neg hcond]
  unfold numToString
  norm_num [Rat.num_intCast]


/-! ### Claim theorems. -/

/-- C1: for every unsigned transaction with a non-empty signature slot
list, if the signing capability returns a result whose reported hash
differs from the hash of the transaction obtained by merging only the
signatures of the capability onto the original unsigned fields, then
`safeSign` raises the hash-mismatch error and the submission step of the
pipeline is never invoked: the conclusion holds for every `submitFn` and
`listenFn`, so `sendTransaction` is independent of `client.submitOne`,
which therefore is never called. -/
theorem sendTransaction_hashMismatch_blocks_submit
    (hashFn : PactCommand → String) (localCall : Tx → ICommandResult)
    (submitFn : Tx → ITransactionDescriptor)
    (listenFn : ITransactionDescriptor → ICommandResult)
    (sign : Tx → Tx) (command : PactCommand) (est : GasEstimate)
    (hest : estimateGas localCall hashFn command = Except.ok est)
    (hsigs : (unsignedTx hashFn est.gasLimit command).sigs ≠ [])
    (hne : ({ unsignedTx hashFn est.gasLimit command with
          sigs := (sign (unsignedTx hashFn est.gasLimit command)).sigs } : Tx).hash
        ≠ (sign (unsignedTx hashFn est.gasLimit command)).hash) :
    sendTransaction hashFn ⟨localCall, submitFn, listenFn⟩ command sign
      = Except.error (JsError.thrown "Hash mismatch") := by
  have hsafe := safeSign_mismatch_aux sign _ hsigs hne
  unfold sendTransaction
  rw [hest]
  show (safeSign sign (unsignedTx hashFn est.gasLimit command) >>= fun signed =>
      extractResult (listenFn (logTransaction (submitFn signed))))
    = Except.error (JsError.thrown "Hash mismatch")
  rw [hsafe]
  rfl

/-- C1 witness: a concrete pipeline run with a capability that alters the
hash ends in the hash-mismatch error. -/
theorem sendTransaction_hashMismatch_blocks_submit_witness :
    sendTransaction sampleHash ⟨sampleOkCall, fun _ => sampleDescriptor, sampleListen⟩
        sampleCmd sampleAlterHashSign = Except.error (JsError.thrown "Hash mismatch") :=
  sendTransaction_hashMismatch_blocks_submit sampleHash sampleOkCall
    (fun _ => sampleDescriptor) sampleListen sampleAlterHashSign sampleCmd
    ⟨42, GAS_PRICE⟩ rfl (by decide) (by decide)

/-- C2: for every command whose speculative dry run succeeds, `estimateGas`
returns exactly the gas value of the dry-run response together with the
fixed gas price; the transaction that `sendTransaction` finalizes carries
that gas limit in its meta, the `setMeta` refinement overrides any gas
limit previously set on the command, the transaction `safeSign` returns
still carries it, and the gas price constant equals `1.0e-8`. -/
theorem estimateGas_returns_dryRun_gas
    (hashFn : PactCommand → String) (localCall : Tx → ICommandResult)
    (command : PactCommand) (response : ICommandResult) (d : JsonVal)
    (hresp : localCall (estimateTx hashFn command) = response)
    (hstatus : response.result = TxResult.success d) :
    estimateGas localCall hashFn command = Except.ok ⟨response.gas, GAS_PRICE⟩
    ∧ (unsignedTx hashFn response.gas command).cmd.meta.gasLimit = some response.gas
    ∧ (∀ prev : Nat, (finalCmd response.gas
        { command with meta := { command.meta with gasLimit := some prev } }).meta.gasLimit
          = some response.gas)
    ∧ (∀ (sign : Tx → Tx) (r : Tx),
        safeSign sign (unsignedTx hashFn response.gas command) = Except.ok r →
          r.cmd.meta.gasLimit = some response.gas)
    ∧ GAS_PRICE = 1 / 100000000 := by
  refine ⟨?_, rfl, fun prev => rfl, ?_, rfl⟩
  · unfold estimateGas
    rw [hresp]
    unfold panicIfFails
    rw [hstatus]
  · intro sign r h
    have hcmd := (safeSign_ok_frame_aux sign _ r h).1
    rw [hcmd]
    rfl

/-- C2 witness: a concrete successful dry run consuming 42 gas yields the
estimate `{gasLimit := 42, gasPrice := GAS_PRICE}`. -/
theorem estimateGas_returns_dryRun_gas_witness :
    estimateGas sampleOkCall sampleHash sampleCmd = Except.ok ⟨42, GAS_PRICE⟩ :=
  (estimateGas_returns_dryRun_gas sampleHash sampleOkCall sampleCmd
    ⟨TxResult.success JsonVal.null, 42⟩ JsonVal.null rfl rfl).1

/-- C3: for every command whose speculative dry run reports on-chain
failure, gas estimation aborts with the panic carrying the error payload
of the chain verbatim, and the whole pipeline returns that same abort for
every signing capability, submission call and listen call — so no
subsequent stage is executed. -/
theorem estimateGas_failure_aborts_pipeline
    (hashFn : PactCommand → String) (localCall : Tx → ICommandResult)
    (submitFn : Tx → ITransactionDescriptor)
    (listenFn : ITransactionDescriptor → ICommandResult)
    (sign : Tx → Tx) (command : PactCommand) (e : JsonVal) (g : Nat)
    (hresp : localCall (estimateTx hashFn command) = ⟨TxResult.failure e, g⟩) :
    estimateGas localCall hashFn command
        = Except.error (JsError.processExit 1 "Failed to execute the command:" e)
    ∧ sendTransaction hashFn ⟨localCall, submitFn, listenFn⟩ command sign
        = Except.error (JsError.processExit 1 "Failed to execute the command:" e) := by
  have h1 : estimateGas localCall hashFn command
      = Except.error (JsError.processExit 1 "Failed to execute the command:" e) := by
    unfold estimateGas
    rw [hresp]
    rfl
  refine ⟨h1, ?_⟩
  unfold sendTransaction
  rw [h1]
  rfl

/-- C3 witness: a concrete failing dry run aborts the estimation with the
panic carrying the concrete error payload. -/
theorem estimateGas_failure_aborts_pipeline_witness :
    estimateGas sampleFailCall sampleHash sampleCmd
      = Except.error (JsError.processExit 1 "Failed to execute the command:" sampleErr) :=
  (estimateGas_failure_aborts_pipeline sampleHash sampleFailCall
    (fun _ => sampleDescriptor) sampleListen sampleGoodSign sampleCmd sampleErr 7 rfl).1

/-- C4: for every unsigned transaction whose signature slot list is empty,
`safeSign` returns the transaction unchanged and classified as signed; the
conclusion holds for every signing capability `sign`, so the capability is
never invoked. -/
theorem safeSign_zero_signers (sign : Tx → Tx) (tx : Tx) (h : tx.sigs = []) :
    safeSign sign tx = Except.ok tx := by
  have hz : tx.sigs.length = 0 := by
    rw [h]
    rfl
  unfold safeSign
  rw [if_pos hz]

/-- C4 witness: a transaction with no declared signer passes `safeSign`
unchanged even when the available capability would tamper with it. -/
theorem safeSign_zero_signers_witness :
    safeSign sampleAlterHashSign (createTransaction sampleHash sampleNoSignerCmd)
      = Except.ok (createTransaction sampleHash sampleNoSignerCmd) :=
  safeSign_zero_signers sampleAlterHashSign (createTransaction sampleHash sampleNoSignerCmd) rfl

/-- C5: for every unsigned transaction and every signing capability, the
transaction `safeSign` returns (when it does not raise) keeps every field
other than the signatures — in particular `hash` and the command payload —
equal to the original unsigned transaction; only `sigs` is taken from the
output of the capability (and when no capability invocation happens, the
transaction is returned whole). -/
theorem safeSign_frame_only_sigs (sign : Tx → Tx) (tx r : Tx)
    (h : safeSign sign tx = Except.ok r) :
    r.cmd = tx.cmd ∧ r.hash = tx.hash ∧ (tx.sigs = [] → r = tx) ∧
      (tx.sigs ≠ [] → r.sigs = (sign tx).sigs) :=
  safeSign_ok_frame_aux sign tx r h

/-- C5 witness: a concrete honest signing run keeps `cmd` and `hash` and
takes `sigs` from the capability output. -/
theorem safeSign_frame_only_sigs_witness :
    ({ txSample with sigs := [some "sig0"] } : Tx).cmd = txSample.cmd
    ∧ ({ txSample with sigs := [some "sig0"] } : Tx).hash = txSample.hash
    ∧ (txSample.sigs = [] → ({ txSample with sigs := [some "sig0"] } : Tx) = txSample)
    ∧ (txSample.sigs ≠ [] →
        ({ txSample with sigs := [some "sig0"] } : Tx).sigs = (sampleGoodSign txSample).sigs) :=
  safeSign_frame_only_sigs sampleGoodSign txSample
    ({ txSample with sigs := [some "sig0"] } : Tx) rfl

/-- C6: for every terminal command result, `extractResult` returns exactly
the data field unmodified when the status is success, and when the status
is failure it aborts carrying the error payload of the chain verbatim and
never returns a value. -/
theorem extractResult_success_data_failure_raises :
    ∀ (d e : JsonVal) (g : Nat),
      extractResult ⟨TxResult.success d, g⟩ = Except.ok d
      ∧ extractResult ⟨TxResult.failure e, g⟩
          = Except.error (JsError.processExit 1 "Failed to execute the command:" e) :=
  fun _ _ _ => ⟨rfl, rfl⟩

/-- C7: for every balance query whose dirty read reports an error whose
message contains `row not found`, the `balance` handler prints the
fallback value `0.0` and does not exit with an execution error. -/
theorem balance_rowNotFound_fallback (toStr : JsonVal → String) (e : JsonVal)
    (h : errorIsRowNotFound e = true) :
    balanceHandler toStr (TxResult.failure e) = BalanceOutcome.printed "0.0"
    ∧ ∀ (code : Nat) (payload : JsonVal),
        balanceHandler toStr (TxResult.failure e) ≠ BalanceOutcome.exited code payload := by
  have h1 : balanceHandler toStr (TxResult.failure e) = BalanceOutcome.printed "0.0" := by
    simp only [balanceHandler]
    rw [if_pos h]
  refine ⟨h1, fun code payload hc => ?_⟩
  rw [h1] at hc
  exact BalanceOutcome.noConfusion hc

/-- C7 witness: a concrete `row not found` failure prints the fallback
`0.0`. -/
theorem balance_rowNotFound_fallback_witness :
    balanceHandler (fun _ => "") (TxResult.failure rowNotFoundErr)
      = BalanceOutcome.printed "0.0" :=
  (balance_rowNotFound_fallback (fun _ => "") rowNotFoundErr (by decide)).1

/-- C8: for every poll response whose result mapping omits the submitted
request key, the `deploy` handler aborts immediately with the
`Invalid API response` exit; it never yields an entry (so the absence is
never treated as still pending), and the check is a total function, so it
cannot loop. -/
theorem pollResponse_missingKey_aborts
    (response : List (String × ICommandResult)) (requestKey : String)
    (h : (response.find? fun p => p.fst == requestKey) = none) :
    pollResponseEntry response requestKey
        = Except.error (JsError.processExit 1 "Invalid API response" JsonVal.null)
    ∧ ∀ entry : ICommandResult,
        pollResponseEntry response requestKey ≠ Except.ok entry := by
  have h1 : pollResponseEntry response requestKey
      = Except.error (JsError.processExit 1 "Invalid API response" JsonVal.null) := by
    unfold pollResponseEntry
    rw [h]
    rfl
  refine ⟨h1, fun entry hc => ?_⟩
  rw [h1] at hc
  exact Except.noConfusion hc

/-- C8 witness: a concrete well-formed poll response that omits the
submitted request key aborts with the `Invalid API response` exit. -/
theorem pollResponse_missingKey_aborts_witness :
    pollResponseEntry [("other-key", ⟨TxResult.success JsonVal.null, 0⟩)] "req-key-1"
      = Except.error (JsError.processExit 1 "Invalid API response" JsonVal.null) :=
  (pollResponse_missingKey_aborts [("other-key", ⟨TxResult.success JsonVal.null, 0⟩)]
    "req-key-1" rfl).1

/-- C9 counterexample: the claim says the core pipeline surfaces every
failure as a typed result value and never terminates the host process; on
this concrete run whose dry run fails, `sendTransaction` ends in
`JsError.processExit 1 ...` — the embedding of `panic`, which prints the
error and calls `process.exit(1)` — so the core does terminate the host
process. -/
theorem corePipeline_processExit_counterexample :
    sendTransaction sampleHash ⟨sampleFailCall, fun _ => sampleDescriptor, sampleListen⟩
        sampleCmd sampleGoodSign
      = Except.error (JsError.processExit 1 "Failed to execute the command:" sampleErr) :=
  rfl

/-- C9 amended: signing failures are surfaced as thrown typed error
values, but gas-estimation failures and on-chain execution failures are
handled by `panic`, which logs the error payload of the chain and
terminates the host process with exit code 1; in every case the failure
aborts the remaining pipeline stages. -/
theorem corePipeline_failure_mechanisms
    (e : JsonVal) (g : Nat) (sign : Tx → Tx) (tx : Tx)
    (hsigs : tx.sigs ≠ [])
    (hne : ({ tx with sigs := (sign tx).sigs } : Tx).hash ≠ (sign tx).hash) :
    panicIfFails ⟨TxResult.failure e, g⟩
        = Except.error (JsError.processExit 1 "Failed to execute the command:" e)
    ∧ safeSign sign tx = Except.error (JsError.thrown "Hash mismatch")
    ∧ extractResult ⟨TxResult.failure e, g⟩
        = Except.error (JsError.processExit 1 "Failed to execute the command:" e) :=
  ⟨rfl, safeSign_mismatch_aux sign tx hsigs hne, rfl⟩

/-- C9 amended witness: the concrete failure mechanisms at concrete
inputs. -/
theorem corePipeline_failure_mechanisms_witness :
    panicIfFails ⟨TxResult.failure sampleErr, 7⟩
      = Except.error (JsError.processExit 1 "Failed to execute the command:" sampleErr) :=
  (corePipeline_failure_mechanisms sampleErr 7 sampleAlterHashSign txSample
    (by decide) (by decide)).1

/-- C10: the `ChainId` argument parser accepts a numeric input exactly when
it is a finite integer between 0 and 19, in which case it returns the
decimal string representation; every other input is rejected with an
error, and the default value is the string `0`. -/
theorem chainId_accepts_iff (x : JSNumber) :
    ((∃ s, chainIdFrom x = Except.ok s) ↔
        ∃ k : ℤ, 0 ≤ k ∧ k ≤ 19 ∧ x = JSNumber.finite (k : ℚ))
    ∧ (∀ k : ℤ, 0 ≤ k → k ≤ 19 →
        chainIdFrom (JSNumber.finite (k : ℚ)) = Except.ok (toString k))
    ∧ chainIdDefaultValue = "0" := by
  refine ⟨⟨?_, ?_⟩, fun k h0 h19 => chainIdFrom_accepts_int_aux k h0 h19, rfl⟩
  · rintro ⟨s, hs⟩
    cases x with
    | nan => exact Except.noConfusion hs
    | inf p => exact Except.noConfusion hs
    | finite q =>
      simp only [chainIdFrom] at hs
      by_cases hc : jsRound q ≠ q ∨ q < 0 ∨ q > 19
      · rw [if_pos hc] at hs
        exact Except.noConfusion hs
      · push_neg at hc
        obtain ⟨hround, hq0, hq19⟩ := hc
        unfold jsRound at hround
        refine ⟨⌊q + 1 / 2⌋, ?_, ?_, ?_⟩
        · have : (0 : ℚ) ≤ ((⌊q + 1 / 2⌋ : ℤ) : ℚ) := by rw [hround]; exact hq0
          exact_mod_cast this
        · have : ((⌊q + 1 / 2⌋ : ℤ) : ℚ) ≤ 19 := by rw [hround]; exact hq19
          exact_mod_cast this
        · rw [hround]
  · rintro ⟨k, h0, h19, rfl⟩
    exact ⟨toString k, chainIdFrom_accepts_int_aux k h0 h19⟩

/-- C10 witness: the parser accepts the integer 7 as the string `7`, and
the default value is `0`. -/
theorem chainId_accepts_iff_witness :
    chainIdFrom (JSNumber.finite ((7 : ℤ) : ℚ)) = Except.ok (toString (7 : ℤ))
    ∧ chainIdDefaultValue = "0" :=
  ⟨(chainId_accepts_iff (JSNumber.finite ((7 : ℤ) : ℚ))).2.1 7 (by decide) (by decide),
    (chainId_accepts_iff (JSNumber.finite ((7 : ℤ) : ℚ))).2.2⟩

end DiaKadena
